import Mathlib

/-!
Verification of the sailing-simulation physics core (src/physics.cpp, src/boat.cpp,
src/types.h) against its natural-language specification.

The C++ code works on IEEE floats; this development embeds it over the reals:
every float becomes an ℝ, every float literal its decimal value, `sinf`/`cosf`/
`sqrtf`/`atan2f` become `Real.sin`/`Real.cos`/`Real.sqrt`/`atan2` below, and the
two `while` loops of `NormalizeAngle` become well-founded recursion.
-/

set_option linter.unusedVariables false

open Real (pi)

/-! ## Physics constants (src/physics.cpp lines 5-11, 32-33 of boat.cpp, 86-87) -/

def WATER_DENSITY : ℝ := 1000
def DRAG_COEFFICIENT : ℝ := 0.007
def HULL_AREA : ℝ := 2
def SAIL_AREA : ℝ := 8
def SAIL_EFFICIENCY : ℝ := 2
def BOAT_MASS : ℝ := 50
def RUDDER_EFFECTIVENESS : ℝ := 0.2
def SAIL_DAMPING : ℝ := 5
def SAIL_SPRING : ℝ := 10
def SAIL_CENTER_HEIGHT : ℝ := 3
def RIGHTING_CONSTANT : ℝ := 10000

/-! ## Data model (src/types.h) -/

/-- `Vector2D` from src/types.h lines 6-20. -/
structure Vector2D where
  x : ℝ
  y : ℝ

namespace Vector2D

/-- `operator+` (types.h line 11). -/
def add (v w : Vector2D) : Vector2D := ⟨v.x + w.x, v.y + w.y⟩

/-- `operator-` (types.h line 12). -/
def sub (v w : Vector2D) : Vector2D := ⟨v.x - w.x, v.y - w.y⟩

/-- `operator*` by a scalar (types.h line 13). -/
def smul (v : Vector2D) (s : ℝ) : Vector2D := ⟨v.x * s, v.y * s⟩

/-- `magnitude()` (types.h line 15): `sqrtf(x*x + y*y)`. -/
noncomputable def magnitude (v : Vector2D) : ℝ := Real.sqrt (v.x * v.x + v.y * v.y)

/-- `normalized()` (types.h lines 16-19): divide by magnitude when positive,
else the zero vector. -/
noncomputable def normalized (v : Vector2D) : Vector2D :=
  let mag := v.magnitude
  if mag > 0 then ⟨v.x / mag, v.y / mag⟩ else ⟨0, 0⟩

end Vector2D

/-- `Boat` (src/types.h lines 22-30) together with the two sail-oscillator
fields `sailAngle`, `sailAngularVel` that src/boat.cpp reads and writes
(boat.cpp lines 16-17, 25, 34-47); the spring-damper revision of the code is
the one specified. -/
structure Boat where
  x : ℝ
  y : ℝ
  vx : ℝ
  vy : ℝ
  heading : ℝ
  heel : ℝ
  sheet : ℝ
  rudder : ℝ
  length : ℝ
  sailAngle : ℝ
  sailAngularVel : ℝ

/-- `Wind` (src/types.h lines 32-35). -/
structure Wind where
  speed : ℝ
  direction : ℝ

/-! ## C library `atan2f`, embedded over ℝ

The C calls are `atan2f(y-arg, x-arg)`; the branches below are the standard
mathematical definition of atan2 restricted to real (non-NaN, finite) inputs,
with `atan2 0 0 = 0` as in C for positive zeros. -/

noncomputable def atan2 (y x : ℝ) : ℝ :=
  if 0 < x then Real.arctan (y / x)
  else if x < 0 then
    (if 0 ≤ y then Real.arctan (y / x) + pi else Real.arctan (y / x) - pi)
  else
    (if 0 < y then pi / 2 else if y < 0 then -(pi / 2) else 0)

/-! ## `NormalizeAngle` (src/physics.cpp lines 13-17)

The two `while` loops are translated one-to-one into two well-founded
recursions: `subTwoPi` is `while (angle > M_PI) angle -= 2*M_PI;` and
`addTwoPi` is `while (angle < -M_PI) angle += 2*M_PI;`. -/

/-- Helper for the termination measures: subtracting a full turn from a
positive quantity strictly lowers its natural-number ceiling. -/
lemma ceil_sub_two_pi_lt (x : ℝ) (hx : 0 < x) :
    Nat.ceil (x - 2 * pi) < Nat.ceil x := by
  have h1 : 0 < Nat.ceil x := Nat.ceil_pos.mpr hx
  have h2 : Nat.ceil (x - 2 * pi) ≤ Nat.ceil x - 1 := by
    apply Nat.ceil_le.mpr
    have hc : ((Nat.ceil x - 1 : ℕ) : ℝ) = (Nat.ceil x : ℝ) - 1 := by
      rw [Nat.cast_sub h1, Nat.cast_one]
    rw [hc]
    have hx2 : x ≤ (Nat.ceil x : ℝ) := Nat.le_ceil x
    have hpi : (1 : ℝ) ≤ 2 * pi := by nlinarith [Real.pi_gt_three]
    linarith
  omega

/-- First loop of `NormalizeAngle`: `while (angle > M_PI) angle -= 2*M_PI;`. -/
noncomputable def subTwoPi (angle : ℝ) : ℝ :=
  if pi < angle then subTwoPi (angle - 2 * pi) else angle
termination_by Nat.ceil (angle - pi)
decreasing_by
  have h : angle - 2 * pi - pi = (angle - pi) - 2 * pi := by ring
  rw [h]
  exact ceil_sub_two_pi_lt (angle - pi) (by linarith)

/-- Second loop of `NormalizeAngle`: `while (angle < -M_PI) angle += 2*M_PI;`. -/
noncomputable def addTwoPi (angle : ℝ) : ℝ :=
  if angle < -pi then addTwoPi (angle + 2 * pi) else angle
termination_by Nat.ceil (-angle - pi)
decreasing_by
  have h : -(angle + 2 * pi) - pi = (-angle - pi) - 2 * pi := by ring
  rw [h]
  exact ceil_sub_two_pi_lt (-angle - pi) (by linarith)

/-- `NormalizeAngle` (src/physics.cpp lines 13-17): the two loops in sequence. -/
noncomputable def NormalizeAngle (angle : ℝ) : ℝ := addTwoPi (subTwoPi angle)

lemma subTwoPi_of_le {a : ℝ} (h : a ≤ pi) : subTwoPi a = a := by
  rw [subTwoPi, if_neg (not_lt.mpr h)]

lemma addTwoPi_of_ge {a : ℝ} (h : -pi ≤ a) : addTwoPi a = a := by
  rw [addTwoPi, if_neg (not_lt.mpr h)]

lemma subTwoPi_le (a : ℝ) : subTwoPi a ≤ pi := by
  induction a using subTwoPi.induct with
  | case1 a h ih =>
    rw [subTwoPi, if_pos h]
    exact ih
  | case2 a h =>
    rw [subTwoPi, if_neg h]
    exact not_lt.mp h

lemma subTwoPi_ge {a : ℝ} (h : -pi ≤ a) : -pi ≤ subTwoPi a := by
  induction a using subTwoPi.induct with
  | case1 a hgt ih =>
    rw [subTwoPi, if_pos hgt]
    have hpi : 0 < pi := Real.pi_pos
    exact ih (by linarith)
  | case2 a hle =>
    rw [subTwoPi, if_neg hle]
    exact h

lemma addTwoPi_ge (a : ℝ) : -pi ≤ addTwoPi a := by
  induction a using addTwoPi.induct with
  | case1 a h ih =>
    rw [addTwoPi, if_pos h]
    exact ih
  | case2 a h =>
    rw [addTwoPi, if_neg h]
    exact not_lt.mp h

lemma addTwoPi_le {a : ℝ} (h : a ≤ pi) : addTwoPi a ≤ pi := by
  induction a using addTwoPi.induct with
  | case1 a hlt ih =>
    rw [addTwoPi, if_pos hlt]
    have hpi : 0 < pi := Real.pi_pos
    exact ih (by linarith)
  | case2 a hge =>
    rw [addTwoPi, if_neg hge]
    exact h

lemma NormalizeAngle_le (a : ℝ) : NormalizeAngle a ≤ pi :=
  addTwoPi_le (subTwoPi_le a)

lemma NormalizeAngle_ge (a : ℝ) : -pi ≤ NormalizeAngle a :=
  addTwoPi_ge _

lemma NormalizeAngle_eq_self {a : ℝ} (h1 : -pi ≤ a) (h2 : a ≤ pi) :
    NormalizeAngle a = a := by
  rw [NormalizeAngle, subTwoPi_of_le h2, addTwoPi_of_ge h1]

lemma NormalizeAngle_idem (a : ℝ) :
    NormalizeAngle (NormalizeAngle a) = NormalizeAngle a :=
  NormalizeAngle_eq_self (NormalizeAngle_ge a) (NormalizeAngle_le a)

/-! ## Wind model (src/physics.cpp lines 19-30) -/

/-- `GetWindVector` (physics.cpp lines 19-24). -/
noncomputable def GetWindVector (wind : Wind) : Vector2D :=
  ⟨-wind.speed * Real.sin wind.direction, -wind.speed * Real.cos wind.direction⟩

/-- `GetApparentWind` (physics.cpp lines 26-30). -/
noncomputable def GetApparentWind (trueWind : Wind) (boatVx boatVy : ℝ) : Vector2D :=
  let trueWindVec := GetWindVector trueWind
  let boatVelocity : Vector2D := ⟨boatVx, boatVy⟩
  trueWindVec.sub boatVelocity

/-! ## Sail model (src/physics.cpp lines 32-63) -/

/-- `GetSailAngle` (physics.cpp lines 32-44). -/
noncomputable def GetSailAngle (apparentWind : Vector2D) (boatHeading sheet : ℝ) : ℝ :=
  let windAngle := atan2 apparentWind.x apparentWind.y
  let windRelativeToBoat := NormalizeAngle (windAngle - boatHeading)
  let naturalSailAngle := NormalizeAngle (windRelativeToBoat + pi)
  let deviationFromStern := |(|naturalSailAngle|) - pi|
  let maxSheetAngle := sheet * pi / 2
  if deviationFromStern > maxSheetAngle then
    (if naturalSailAngle > 0 then pi - maxSheetAngle else -pi + maxSheetAngle)
  else naturalSailAngle

/-- `CalculateSailForce` (physics.cpp lines 46-63). -/
noncomputable def CalculateSailForce (apparentWind : Vector2D) (boatHeading sheet : ℝ) :
    Vector2D :=
  let sailAngle := GetSailAngle apparentWind boatHeading sheet
  let apparentWindSpeed := apparentWind.magnitude
  if apparentWindSpeed < 0.1 then ⟨0, 0⟩
  else
    let sailOrientation := boatHeading + sailAngle
    let windToSailAngle :=
      NormalizeAngle (atan2 apparentWind.x apparentWind.y - sailOrientation)
    let efficiency := Real.sin |windToSailAngle|
    let forceMagnitude :=
      0.5 * SAIL_EFFICIENCY * SAIL_AREA * efficiency * apparentWindSpeed * apparentWindSpeed
    let forceDirection := sailOrientation + (if windToSailAngle > 0 then pi / 2 else -(pi / 2))
    ⟨forceMagnitude * Real.sin forceDirection, forceMagnitude * Real.cos forceDirection⟩

/-! ## Drag model (src/physics.cpp lines 65-73) -/

/-- `CalculateDrag` (physics.cpp lines 65-73). -/
noncomputable def CalculateDrag (vx vy : ℝ) : Vector2D :=
  let velocity : Vector2D := ⟨vx, vy⟩
  let speed := velocity.magnitude
  if speed < 0.01 then ⟨0, 0⟩
  else
    let dragMagnitude := 0.5 * WATER_DENSITY * DRAG_COEFFICIENT * HULL_AREA * speed * speed
    velocity.normalized.smul (-dragMagnitude)

/-! ## Heel model (src/physics.cpp lines 75-105)

`CalculateHeelAngle` is split into the heeling-moment computation
(lines 76-96) and the clamp/sign step (lines 97-104).  The function body also
contains a `static float prevDeviation` (lines 99-101) whose derived value
`signSource` is never read afterwards; `CalculateHeelAngleSt` below carries
that static explicitly as state, `CalculateHeelAngle` is the returned value. -/

/-- Lines 76-96 of physics.cpp: the signed heeling moment
`heelMagnitude * heelDirection`. -/
noncomputable def heelingMoment (apparentWind : Vector2D) (boatHeading sailAngle : ℝ) : ℝ :=
  let apparentWindSpeed := apparentWind.magnitude
  let apparentWindAngle := atan2 apparentWind.x apparentWind.y
  let sailOrientationWorld := boatHeading + sailAngle
  let windToSailAngle := NormalizeAngle (apparentWindAngle - sailOrientationWorld)
  let windEfficiency := Real.sin |windToSailAngle|
  let windForce :=
    0.5 * SAIL_EFFICIENCY * SAIL_AREA * windEfficiency * apparentWindSpeed * apparentWindSpeed
  let deviationFromCenterline := NormalizeAngle (sailAngle - pi)
  let heelMagnitude := windForce * |Real.cos deviationFromCenterline| * SAIL_CENTER_HEIGHT
  let heelDirection : ℝ := if windToSailAngle > 0 then 1 else -1
  heelMagnitude * heelDirection

/-- `CalculateHeelAngle` (physics.cpp lines 75-105), the returned value:
clamp the moment-derived angle to magnitude π/4, keeping the sign of
`heelAngle` (lines 97, 103-104). -/
noncomputable def CalculateHeelAngle (apparentWind : Vector2D) (boatHeading sailAngle : ℝ) :
    ℝ :=
  let heelAngle := heelingMoment apparentWind boatHeading sailAngle / RIGHTING_CONSTANT
  let clampedMagnitude := min |heelAngle| (pi / 4)
  if heelAngle > 0 then clampedMagnitude else -clampedMagnitude

/-- `CalculateHeelAngle` with the `static float prevDeviation` of physics.cpp
lines 99-101 made explicit: input `prevDeviation` is the static's value on
entry, the second output its value at return.  `signSource` (line 100) is
computed but unused by the rest of the function, exactly as in the source. -/
noncomputable def CalculateHeelAngleSt (apparentWind : Vector2D)
    (boatHeading sailAngle prevDeviation : ℝ) : ℝ × ℝ :=
  let heelAngle := heelingMoment apparentWind boatHeading sailAngle / RIGHTING_CONSTANT
  let deviationFromCenterline := NormalizeAngle (sailAngle - pi)
  let signSource :=
    if |deviationFromCenterline| < 0.01 then prevDeviation else deviationFromCenterline
  let clampedMagnitude := min |heelAngle| (pi / 4)
  ((if heelAngle > 0 then clampedMagnitude else -clampedMagnitude), deviationFromCenterline)

/-! ## Boat update (src/boat.cpp lines 20-83)

`UpdateBoat` mutates the boat in place; here it is a state transition
`Boat → Boat`, factored into the sail-dynamics step (lines 21-47), the
velocity/keel step (lines 50-73) and the final assembly (lines 49-83). -/

/-- Sail spring-damper dynamics and sheet clamp, boat.cpp lines 21-47:
returns the new `(sailAngle, sailAngularVel)`. -/
noncomputable def updateSail (b : Boat) (w : Wind) (dt : ℝ) : ℝ × ℝ :=
  let apparentWind := GetApparentWind w b.vx b.vy
  let windAngle := atan2 apparentWind.x apparentWind.y
  let boomWorld := b.heading + b.sailAngle
  let targetBoomWorld := NormalizeAngle (windAngle + pi)
  let boomError := NormalizeAngle (targetBoomWorld - boomWorld)
  let sailAcceleration := boomError * SAIL_SPRING - b.sailAngularVel * SAIL_DAMPING
  let sailAngularVel1 := b.sailAngularVel + sailAcceleration * dt
  let sailAngle1 := NormalizeAngle (b.sailAngle + sailAngularVel1 * dt)
  let maxSheetAngle := b.sheet * pi / 2
  let deviation := NormalizeAngle (sailAngle1 - pi)
  if |deviation| > maxSheetAngle then
    (pi + (if deviation > 0 then maxSheetAngle else -maxSheetAngle), 0)
  else (sailAngle1, sailAngularVel1)

/-- Velocity update and keel constraint, boat.cpp lines 50-73: sail force
projected onto the heading axis, drag, Euler step, then the lateral component
is discarded. -/
noncomputable def postKeelVelocity (b : Boat) (w : Wind) (dt : ℝ) : Vector2D :=
  let apparentWind := GetApparentWind w b.vx b.vy
  let sailForce := CalculateSailForce apparentWind b.heading b.sheet
  let forceAlongHeading := sailForce.x * Real.sin b.heading + sailForce.y * Real.cos b.heading
  let effectiveForce : Vector2D :=
    ⟨forceAlongHeading * Real.sin b.heading, forceAlongHeading * Real.cos b.heading⟩
  let dragForce := CalculateDrag b.vx b.vy
  let totalForce := effectiveForce.add dragForce
  let acceleration := totalForce.smul (1 / BOAT_MASS)
  let vx1 := b.vx + acceleration.x * dt
  let vy1 := b.vy + acceleration.y * dt
  let speedAlongHeading := vx1 * Real.sin b.heading + vy1 * Real.cos b.heading
  ⟨speedAlongHeading * Real.sin b.heading, speedAlongHeading * Real.cos b.heading⟩

/-- The scalar speed recomputed at boat.cpp line 80 from the post-keel
velocity: `sqrtf(vx*vx + vy*vy)`. -/
noncomputable def postKeelSpeed (b : Boat) (w : Wind) (dt : ℝ) : ℝ :=
  let v := postKeelVelocity b w dt
  Real.sqrt (v.x * v.x + v.y * v.y)

/-- `UpdateBoat` (boat.cpp lines 20-83) as a state transition. -/
noncomputable def updateBoat (b : Boat) (w : Wind) (dt : ℝ) : Boat :=
  let apparentWind := GetApparentWind w b.vx b.vy
  let sail := updateSail b w dt
  let heel := CalculateHeelAngle apparentWind b.heading sail.1
  let v2 := postKeelVelocity b w dt
  let speed := postKeelSpeed b w dt
  { x := b.x + v2.x * dt
    y := b.y + v2.y * dt
    vx := v2.x
    vy := v2.y
    heading := NormalizeAngle (b.heading + b.rudder * RUDDER_EFFECTIVENESS * speed * dt)
    heel := heel
    sheet := b.sheet
    rudder := b.rudder
    length := b.length
    sailAngle := sail.1
    sailAngularVel := sail.2 }

/-! ## Projection lemmas for `updateBoat` -/

lemma updateBoat_vx (b : Boat) (w : Wind) (dt : ℝ) :
    (updateBoat b w dt).vx = (postKeelVelocity b w dt).x := rfl

lemma updateBoat_vy (b : Boat) (w : Wind) (dt : ℝ) :
    (updateBoat b w dt).vy = (postKeelVelocity b w dt).y := rfl

lemma updateBoat_heading (b : Boat) (w : Wind) (dt : ℝ) :
    (updateBoat b w dt).heading =
      NormalizeAngle (b.heading + b.rudder * RUDDER_EFFECTIVENESS * postKeelSpeed b w dt * dt) :=
  rfl

lemma updateBoat_sailAngle (b : Boat) (w : Wind) (dt : ℝ) :
    (updateBoat b w dt).sailAngle = (updateSail b w dt).1 := rfl

/-! ## General evaluation helpers -/

lemma sqrt_val {x r : ℝ} (h : x = r ^ 2) (hr : 0 ≤ r) : Real.sqrt x = r := by
  rw [h, Real.sqrt_sq hr]

lemma magnitude_val {vx vy r : ℝ} (h : vx * vx + vy * vy = r ^ 2) (hr : 0 ≤ r) :
    Vector2D.magnitude ⟨vx, vy⟩ = r := by
  rw [Vector2D.magnitude]
  exact sqrt_val h hr

/-- Below the 0.1 m/s apparent-wind threshold the sail force is the zero
vector (physics.cpp line 50). -/
lemma sailForce_small {aw : Vector2D} (boatHeading sheet : ℝ)
    (h : aw.magnitude < 0.1) : CalculateSailForce aw boatHeading sheet = ⟨0, 0⟩ := by
  rw [CalculateSailForce]
  simp only [if_pos h]

/-- Below the 0.01 m/s speed threshold the drag is the zero vector
(physics.cpp line 69). -/
lemma drag_small {vx vy : ℝ} (h : Vector2D.magnitude ⟨vx, vy⟩ < 0.01) :
    CalculateDrag vx vy = ⟨0, 0⟩ := by
  rw [CalculateDrag]
  simp only [if_pos h]

/-- Above the threshold, the drag unfolds to `normalized * (-dragMagnitude)`. -/
lemma drag_unfold {vx vy : ℝ} (h : ¬ Vector2D.magnitude ⟨vx, vy⟩ < 0.01) :
    CalculateDrag vx vy =
      (Vector2D.normalized ⟨vx, vy⟩).smul
        (-(0.5 * WATER_DENSITY * DRAG_COEFFICIENT * HULL_AREA *
          Vector2D.magnitude ⟨vx, vy⟩ * Vector2D.magnitude ⟨vx, vy⟩)) := by
  rw [CalculateDrag]
  simp only [if_neg h]

/-! ## Concrete scenarios used for witnesses and counterexamples

Wind of zero speed, a slow boat: chosen so that the apparent wind stays below
the 0.1 m/s sail-force threshold and every intermediate value is rational. -/

/-- Calm wind. -/
def w0 : Wind := ⟨0, 0⟩

/-- Boat heading north (0 rad) moving north at 0.05 m/s, full right rudder. -/
noncomputable def bA : Boat :=
  { x := 0, y := 0, vx := 0, vy := 0.05, heading := 0, heel := 0,
    sheet := 0, rudder := 1, length := 5, sailAngle := 0, sailAngularVel := 0 }

/-- Same state as `bA` but with the rudder centered. -/
noncomputable def bB : Boat :=
  { x := 0, y := 0, vx := 0, vy := 0.05, heading := 0, heel := 0,
    sheet := 0, rudder := 0, length := 5, sailAngle := 0, sailAngularVel := 0 }

/-- Boat heading north (0 rad) but moving east at 0.05 m/s (pure lateral
motion), full right rudder. -/
noncomputable def bC : Boat :=
  { x := 0, y := 0, vx := 0.05, vy := 0, heading := 0, heel := 0,
    sheet := 0, rudder := 1, length := 5, sailAngle := 0, sailAngularVel := 0 }

lemma apparentWind_A : GetApparentWind w0 0 0.05 = ⟨0, -0.05⟩ := by
  simp only [GetApparentWind, GetWindVector, Vector2D.sub, w0]
  norm_num [Real.sin_zero, Real.cos_zero]

lemma apparentWind_C : GetApparentWind w0 0.05 0 = ⟨-0.05, 0⟩ := by
  simp only [GetApparentWind, GetWindVector, Vector2D.sub, w0]
  norm_num [Real.sin_zero, Real.cos_zero]

lemma mag_A : Vector2D.magnitude ⟨0, -0.05⟩ = 0.05 :=
  magnitude_val (by norm_num) (by norm_num)

lemma mag_A2 : Vector2D.magnitude ⟨0, 0.05⟩ = 0.05 :=
  magnitude_val (by norm_num) (by norm_num)

lemma mag_C : Vector2D.magnitude ⟨-0.05, 0⟩ = 0.05 :=
  magnitude_val (by norm_num) (by norm_num)

lemma mag_C2 : Vector2D.magnitude ⟨0.05, 0⟩ = 0.05 :=
  magnitude_val (by norm_num) (by norm_num)

lemma drag_A : CalculateDrag 0 0.05 = ⟨0, -0.0175⟩ := by
  rw [drag_unfold (by rw [mag_A2]; norm_num)]
  rw [Vector2D.normalized]
  simp only [mag_A2]
  rw [if_pos (by norm_num)]
  rw [Vector2D.smul]
  simp only [WATER_DENSITY, DRAG_COEFFICIENT, HULL_AREA]
  norm_num

lemma drag_C : CalculateDrag 0.05 0 = ⟨-0.0175, 0⟩ := by
  rw [drag_unfold (by rw [mag_C2]; norm_num)]
  rw [Vector2D.normalized]
  simp only [mag_C2]
  rw [if_pos (by norm_num)]
  rw [Vector2D.smul]
  simp only [WATER_DENSITY, DRAG_COEFFICIENT, HULL_AREA]
  norm_num

lemma postKeelVelocity_A : postKeelVelocity bA w0 1 = ⟨0, 0.04965⟩ := by
  rw [postKeelVelocity]
  simp only [bA]
  rw [apparentWind_A, sailForce_small 0 0 (by rw [mag_A]; norm_num), drag_A]
  simp only [Vector2D.add, Vector2D.smul, BOAT_MASS]
  norm_num [Real.sin_zero, Real.cos_zero]

lemma postKeelVelocity_C : postKeelVelocity bC w0 1 = ⟨0, 0⟩ := by
  rw [postKeelVelocity]
  simp only [bC]
  rw [apparentWind_C, sailForce_small 0 0 (by rw [mag_C]; norm_num), drag_C]
  simp only [Vector2D.add, Vector2D.smul, BOAT_MASS]
  norm_num [Real.sin_zero, Real.cos_zero]

lemma postKeelSpeed_A : postKeelSpeed bA w0 1 = 0.04965 := by
  rw [postKeelSpeed]
  simp only [postKeelVelocity_A]
  exact sqrt_val (by norm_num) (by norm_num)

lemma postKeelSpeed_C : postKeelSpeed bC w0 1 = 0 := by
  rw [postKeelSpeed]
  simp only [postKeelVelocity_C]
  norm_num [Real.sqrt_zero]

lemma heading_A : (updateBoat bA w0 1).heading = 0.00993 := by
  rw [updateBoat_heading, postKeelSpeed_A]
  have h1 : bA.heading = 0 := rfl
  have h2 : bA.rudder = 1 := rfl
  rw [h1, h2]
  simp only [RUDDER_EFFECTIVENESS]
  norm_num
  exact NormalizeAngle_eq_self
    (by nlinarith [Real.pi_gt_three]) (by nlinarith [Real.pi_gt_three])

lemma heading_C : (updateBoat bC w0 1).heading = 0 := by
  rw [updateBoat_heading, postKeelSpeed_C]
  have h1 : bC.heading = 0 := rfl
  rw [h1]
  norm_num
  exact NormalizeAngle_eq_self (by linarith [Real.pi_pos]) Real.pi_pos.le

/-- Magnitude of a scalar multiple. -/
lemma magnitude_smul (v : Vector2D) (k : ℝ) :
    (v.smul k).magnitude = |k| * v.magnitude := by
  simp only [Vector2D.smul, Vector2D.magnitude]
  rw [show v.x * k * (v.x * k) + v.y * k * (v.y * k) = k ^ 2 * (v.x * v.x + v.y * v.y) by
    ring]
  rw [Real.sqrt_mul (sq_nonneg k), Real.sqrt_sq_eq_abs]

/-! ## Claims -/

/-- Claim C2 (amended): for every input, `NormalizeAngle` returns a value in
the closed interval [−π, π] — the endpoint −π is attainable, see the
counterexample — and `NormalizeAngle` is idempotent. -/
theorem C2_normalize_range_idem (a : ℝ) :
    (-pi ≤ NormalizeAngle a ∧ NormalizeAngle a ≤ pi) ∧
      NormalizeAngle (NormalizeAngle a) = NormalizeAngle a :=
  ⟨⟨NormalizeAngle_ge a, NormalizeAngle_le a⟩, NormalizeAngle_idem a⟩

/-- Claim C2, counterexample to the claim as stated: `NormalizeAngle (−π)`
returns −π itself, which is not in the half-open interval (−π, π] — the loop
guards `angle > M_PI` and `angle < -M_PI` are strict, so −π is a fixed
point. -/
theorem C2_normalize_counterexample :
    NormalizeAngle (-pi) = -pi ∧ ¬ (-pi < NormalizeAngle (-pi)) := by
  have h : NormalizeAngle (-pi) = -pi :=
    NormalizeAngle_eq_self le_rfl (by linarith [Real.pi_pos])
  exact ⟨h, by rw [h]; exact lt_irrefl _⟩

/-- Claim C6: below the 0.1 m/s apparent-wind threshold `CalculateSailForce`
returns exactly the zero vector, and below the 0.01 m/s speed threshold
`CalculateDrag` returns exactly the zero vector. -/
theorem C6_zero_thresholds (aw : Vector2D) (hd sheet vx vy : ℝ) :
    (aw.magnitude < 0.1 → CalculateSailForce aw hd sheet = ⟨0, 0⟩) ∧
    (Vector2D.magnitude ⟨vx, vy⟩ < 0.01 → CalculateDrag vx vy = ⟨0, 0⟩) :=
  ⟨fun h => sailForce_small hd sheet h, fun h => drag_small h⟩

/-- Claim C6, witness: zero apparent wind and zero velocity give exactly zero
force and drag. -/
theorem C6_zero_thresholds_witness :
    CalculateSailForce ⟨0, 0⟩ 0 0 = ⟨0, 0⟩ ∧ CalculateDrag 0 0 = ⟨0, 0⟩ := by
  have hm : Vector2D.magnitude ⟨(0 : ℝ), 0⟩ = 0 := magnitude_val (by norm_num) le_rfl
  exact ⟨(C6_zero_thresholds ⟨0, 0⟩ 0 0 0 0).1 (by rw [hm]; norm_num),
         (C6_zero_thresholds ⟨0, 0⟩ 0 0 0 0).2 (by rw [hm]; norm_num)⟩

/-- Claim C7: at or above the 0.01 m/s threshold, the drag vector is the
velocity scaled by minus `0.5 · waterDensity · dragCoefficient · hullArea ·
speed`, hence has magnitude `0.5 · waterDensity · dragCoefficient · hullArea ·
speed²` and points exactly opposite the velocity. -/
theorem C7_drag_formula (vx vy : ℝ)
    (h : 0.01 ≤ Vector2D.magnitude ⟨vx, vy⟩) :
    CalculateDrag vx vy =
      (Vector2D.mk vx vy).smul
        (-(0.5 * WATER_DENSITY * DRAG_COEFFICIENT * HULL_AREA *
            Vector2D.magnitude ⟨vx, vy⟩)) ∧
    (CalculateDrag vx vy).magnitude =
      0.5 * WATER_DENSITY * DRAG_COEFFICIENT * HULL_AREA *
        Vector2D.magnitude ⟨vx, vy⟩ ^ 2 ∧
    ∃ c : ℝ, 0 < c ∧ CalculateDrag vx vy = (Vector2D.mk vx vy).smul (-c) := by
  set s := Vector2D.magnitude ⟨vx, vy⟩ with hs
  have hspos : 0 < s := lt_of_lt_of_le (by norm_num) h
  have hsne : s ≠ 0 := ne_of_gt hspos
  have hc0 : (0 : ℝ) < 0.5 * WATER_DENSITY * DRAG_COEFFICIENT * HULL_AREA := by
    norm_num [WATER_DENSITY, DRAG_COEFFICIENT, HULL_AREA]
  have hdrag : CalculateDrag vx vy =
      (Vector2D.mk vx vy).smul
        (-(0.5 * WATER_DENSITY * DRAG_COEFFICIENT * HULL_AREA * s)) := by
    rw [drag_unfold (not_lt.mpr h)]
    rw [Vector2D.normalized]
    simp only [← hs]
    rw [if_pos hspos]
    simp only [Vector2D.smul, Vector2D.mk.injEq]
    constructor
    · field_simp
      ring
    · field_simp
      ring
  refine ⟨hdrag, ?_, ?_⟩
  · rw [hdrag, magnitude_smul, ← hs, abs_neg,
      abs_of_nonneg (by positivity : (0 : ℝ) ≤ 0.5 * WATER_DENSITY * DRAG_COEFFICIENT *
        HULL_AREA * s)]
    ring
  · exact ⟨0.5 * WATER_DENSITY * DRAG_COEFFICIENT * HULL_AREA * s, by positivity, hdrag⟩

/-- Claim C7, witness at velocity (3, 4): speed 5, drag −35·(3, 4), magnitude
175. -/
theorem C7_drag_formula_witness :
    CalculateDrag 3 4 =
      (Vector2D.mk 3 4).smul
        (-(0.5 * WATER_DENSITY * DRAG_COEFFICIENT * HULL_AREA *
            Vector2D.magnitude ⟨3, 4⟩)) ∧
    (CalculateDrag 3 4).magnitude =
      0.5 * WATER_DENSITY * DRAG_COEFFICIENT * HULL_AREA *
        Vector2D.magnitude ⟨3, 4⟩ ^ 2 ∧
    ∃ c : ℝ, 0 < c ∧ CalculateDrag 3 4 = (Vector2D.mk 3 4).smul (-c) := by
  have hm : Vector2D.magnitude ⟨(3 : ℝ), 4⟩ = 5 := magnitude_val (by norm_num) (by norm_num)
  exact C7_drag_formula 3 4 (by rw [hm]; norm_num)

/-- Claim C8: `GetWindVector` is exactly
`(−speed·sin direction, −speed·cos direction)` and `GetApparentWind` is
exactly the true-wind vector minus the boat velocity, with no clamping. -/
theorem C8_wind_vectors (w : Wind) (vx vy : ℝ) :
    GetWindVector w =
      ⟨-w.speed * Real.sin w.direction, -w.speed * Real.cos w.direction⟩ ∧
    GetApparentWind w vx vy = (GetWindVector w).sub ⟨vx, vy⟩ :=
  ⟨rfl, rfl⟩

/-- Claim C9: the heel computation is memoryless and deterministic — with the
`static float prevDeviation` threaded explicitly as state, the returned heel
angle does not depend on the incoming state (the derived `signSource` is dead
code), and equals the pure `CalculateHeelAngle` of the current arguments. -/
theorem C9_heel_memoryless (aw : Vector2D) (hd sa p1 p2 : ℝ) :
    (CalculateHeelAngleSt aw hd sa p1).1 = (CalculateHeelAngleSt aw hd sa p2).1 ∧
    (CalculateHeelAngleSt aw hd sa p1).1 = CalculateHeelAngle aw hd sa :=
  ⟨rfl, rfl⟩

/-- Claim C10: one `UpdateBoat` tick leaves `sheet`, `rudder` and `length`
unchanged; only position, velocity, heading, heel and the sail state are
written. -/
theorem C10_frame (b : Boat) (w : Wind) (dt : ℝ) :
    (updateBoat b w dt).sheet = b.sheet ∧ (updateBoat b w dt).rudder = b.rudder ∧
      (updateBoat b w dt).length = b.length :=
  ⟨rfl, rfl, rfl⟩

/-- Claim C1 (amended): after one `UpdateBoat` tick the velocity is exactly
parallel to the unit vector of the heading in effect during the tick (the
pre-rudder-update heading): its cross-track component is exactly zero.  The
velocity is parallel to the post-update heading whenever the rudder is
centered (for a normalized initial heading); with nonzero rudder the heading
turns after the keel projection, see the counterexample. -/
theorem C1_keel_velocity_parallel (b : Boat) (w : Wind) (dt : ℝ) :
    (updateBoat b w dt).vx * Real.cos b.heading -
      (updateBoat b w dt).vy * Real.sin b.heading = 0 ∧
    (b.rudder = 0 → -pi ≤ b.heading → b.heading ≤ pi →
      (updateBoat b w dt).vx * Real.cos ((updateBoat b w dt).heading) -
        (updateBoat b w dt).vy * Real.sin ((updateBoat b w dt).heading) = 0) := by
  have hpar : (updateBoat b w dt).vx * Real.cos b.heading -
      (updateBoat b w dt).vy * Real.sin b.heading = 0 := by
    rw [updateBoat_vx, updateBoat_vy]
    simp only [postKeelVelocity]
    ring
  refine ⟨hpar, fun hr h1 h2 => ?_⟩
  have hh : (updateBoat b w dt).heading = b.heading := by
    rw [updateBoat_heading, hr]
    simp only [zero_mul, add_zero]
    exact NormalizeAngle_eq_self h1 h2
  rw [hh]
  exact hpar

/-- Claim C1, witness for the rudder-centered conjunct: boat `bB` (centered
rudder, heading 0, speed 0.05 m/s north) keeps its velocity parallel to the
post-update heading. -/
theorem C1_keel_velocity_parallel_witness :
    (updateBoat bB w0 1).vx * Real.cos ((updateBoat bB w0 1).heading) -
      (updateBoat bB w0 1).vy * Real.sin ((updateBoat bB w0 1).heading) = 0 :=
  (C1_keel_velocity_parallel bB w0 1).2 rfl
    (show -pi ≤ (0 : ℝ) by linarith [Real.pi_pos])
    (show (0 : ℝ) ≤ pi from Real.pi_pos.le)

/-- Claim C1, counterexample to the claim as stated: for boat `bA` (full right
rudder, heading 0, speed 0.05 m/s north, calm wind, dt = 1) the post-update
heading is 0.00993 rad while the velocity is still (0, 0.04965) along the old
heading, so the cross-track component against the post-update heading is
−0.04965·sin 0.00993 ≠ 0. -/
theorem C1_keel_velocity_parallel_counterexample :
    (updateBoat bA w0 1).vx * Real.cos ((updateBoat bA w0 1).heading) -
      (updateBoat bA w0 1).vy * Real.sin ((updateBoat bA w0 1).heading) ≠ 0 := by
  have hx : (updateBoat bA w0 1).vx = 0 := by
    rw [updateBoat_vx, postKeelVelocity_A]
  have hy : (updateBoat bA w0 1).vy = 0.04965 := by
    rw [updateBoat_vy, postKeelVelocity_A]
  rw [hx, hy, heading_A]
  have hs : 0 < Real.sin 0.00993 :=
    Real.sin_pos_of_pos_of_lt_pi (by norm_num) (by nlinarith [Real.pi_gt_three])
  intro hzero
  nlinarith [hs, hzero]

/-- Claim C5 (amended): each tick updates the heading by exactly
`rudder · RUDDER_EFFECTIVENESS · speed · dt` (where `speed` is the scalar
speed of the post-keel-projection velocity) followed by normalization; with
centered rudder the heading is unchanged (for a normalized heading), and with
`rudder = 1` the heading strictly increases provided the post-projection
speed is nonzero, `dt > 0`, and the updated heading does not wrap past π.
The original claim's premise of nonzero pre-tick speed is not enough: the
keel projection can annihilate the speed, see the counterexample. -/
theorem C5_heading_update (b : Boat) (w : Wind) (dt : ℝ) :
    (updateBoat b w dt).heading =
      NormalizeAngle
        (b.heading + b.rudder * RUDDER_EFFECTIVENESS * postKeelSpeed b w dt * dt) ∧
    (b.rudder = 0 → -pi ≤ b.heading → b.heading ≤ pi →
      (updateBoat b w dt).heading = b.heading) ∧
    (b.rudder = 1 → 0 < dt → 0 < postKeelSpeed b w dt → -pi ≤ b.heading →
      b.heading + b.rudder * RUDDER_EFFECTIVENESS * postKeelSpeed b w dt * dt ≤ pi →
      b.heading < (updateBoat b w dt).heading) := by
  refine ⟨updateBoat_heading b w dt, fun hr h1 h2 => ?_, fun hr hdt hsp h1 h2 => ?_⟩
  · rw [updateBoat_heading, hr]
    simp only [zero_mul, add_zero]
    exact NormalizeAngle_eq_self h1 h2
  · rw [updateBoat_heading]
    have hδ : 0 < b.rudder * RUDDER_EFFECTIVENESS * postKeelSpeed b w dt * dt := by
      rw [hr]
      simp only [RUDDER_EFFECTIVENESS]
      nlinarith [mul_pos hsp hdt]
    rw [NormalizeAngle_eq_self (by linarith) (by rw [hr] at h2 ⊢; exact h2)]
    linarith

/-- Claim C5, witness: with centered rudder boat `bB` keeps heading 0; with
full right rudder and surviving speed boat `bA` strictly gains heading. -/
theorem C5_heading_update_witness :
    (updateBoat bB w0 1).heading = bB.heading ∧
      bA.heading < (updateBoat bA w0 1).heading := by
  constructor
  · exact (C5_heading_update bB w0 1).2.1 rfl
      (show -pi ≤ (0 : ℝ) by linarith [Real.pi_pos]) (show (0 : ℝ) ≤ pi from Real.pi_pos.le)
  · refine (C5_heading_update bA w0 1).2.2 rfl (by norm_num) ?_ ?_ ?_
    · rw [postKeelSpeed_A]
      norm_num
    · show -pi ≤ (0 : ℝ)
      linarith [Real.pi_pos]
    · rw [postKeelSpeed_A]
      show (0 : ℝ) + 1 * RUDDER_EFFECTIVENESS * 0.04965 * 1 ≤ pi
      simp only [RUDDER_EFFECTIVENESS]
      nlinarith [Real.pi_gt_three]

/-- Claim C5, counterexample to the claim as stated: boat `bC` has full right
rudder and nonzero pre-tick speed (0.05 m/s, but moving perpendicular to its
heading), yet after one tick the heading has not increased — the keel
projection zeroes the velocity, and the turn rate scales with the
post-projection speed. -/
theorem C5_heading_update_counterexample :
    bC.rudder = 1 ∧ (bC.vx ≠ 0 ∨ bC.vy ≠ 0) ∧
      ¬ (bC.heading < (updateBoat bC w0 1).heading) := by
  refine ⟨rfl, Or.inl (by norm_num [bC]), ?_⟩
  rw [heading_C]
  show ¬ ((0 : ℝ) < 0)
  exact lt_irrefl 0

/-- The sheet clamp in `UpdateBoat` (boat.cpp lines 41-47) bounds the sail
angle's deviation from dead-astern by `sheet · π/2`. -/
lemma updateSail_fst_bound (b : Boat) (w : Wind) (dt : ℝ)
    (hb0 : 0 ≤ b.sheet) (hb1 : b.sheet ≤ 1) :
    |NormalizeAngle ((updateSail b w dt).1 - pi)| ≤ b.sheet * pi / 2 := by
  have hpi := Real.pi_pos
  have hm0 : 0 ≤ b.sheet * pi / 2 := by positivity
  have hm1 : b.sheet * pi / 2 ≤ pi / 2 := by nlinarith
  simp only [updateSail]
  split_ifs with h1 h2
  · show |NormalizeAngle (pi + b.sheet * pi / 2 - pi)| ≤ b.sheet * pi / 2
    rw [show pi + b.sheet * pi / 2 - pi = b.sheet * pi / 2 by ring,
      NormalizeAngle_eq_self (by linarith) (by linarith), abs_of_nonneg hm0]
  · show |NormalizeAngle (pi + -(b.sheet * pi / 2) - pi)| ≤ b.sheet * pi / 2
    rw [show pi + -(b.sheet * pi / 2) - pi = -(b.sheet * pi / 2) by ring,
      NormalizeAngle_eq_self (by linarith) (by linarith), abs_neg, abs_of_nonneg hm0]
  · exact not_lt.mp h1

/-- Claim C3: for sheet values in [0, 1], the sail angle returned by
`GetSailAngle` deviates from dead-astern by at most `sheet · π/2`, and the
sail angle stored by `UpdateBoat` after the sheet clamp satisfies the same
bound. -/
theorem C3_sail_sheet_bound (aw : Vector2D) (hd sheet : ℝ) (b : Boat) (w : Wind)
    (dt : ℝ) (hs0 : 0 ≤ sheet) (hs1 : sheet ≤ 1) (hb0 : 0 ≤ b.sheet)
    (hb1 : b.sheet ≤ 1) :
    |(|GetSailAngle aw hd sheet|) - pi| ≤ sheet * pi / 2 ∧
    |NormalizeAngle ((updateBoat b w dt).sailAngle - pi)| ≤ b.sheet * pi / 2 := by
  have hpi := Real.pi_pos
  have hm0 : 0 ≤ sheet * pi / 2 := by positivity
  have hm1 : sheet * pi / 2 ≤ pi / 2 := by nlinarith
  constructor
  · simp only [GetSailAngle]
    split_ifs with h1 h2
    · rw [abs_of_nonneg (by linarith : (0 : ℝ) ≤ pi - sheet * pi / 2),
        show pi - sheet * pi / 2 - pi = -(sheet * pi / 2) by ring, abs_neg,
        abs_of_nonneg hm0]
    · rw [abs_of_nonpos (by linarith : -pi + sheet * pi / 2 ≤ 0),
        show -(-pi + sheet * pi / 2) - pi = -(sheet * pi / 2) by ring, abs_neg,
        abs_of_nonneg hm0]
    · exact not_lt.mp h1
  · rw [updateBoat_sailAngle]
    exact updateSail_fst_bound b w dt hb0 hb1

/-- Claim C3, witness: apparent wind from dead-north on a north-heading boat
with the sheet fully eased, and one tick of boat `bA` (sheet hauled to 0). -/
theorem C3_sail_sheet_bound_witness :
    |(|GetSailAngle ⟨0, 1⟩ 0 1|) - pi| ≤ 1 * pi / 2 ∧
    |NormalizeAngle ((updateBoat bA w0 1).sailAngle - pi)| ≤ bA.sheet * pi / 2 :=
  C3_sail_sheet_bound ⟨0, 1⟩ 0 1 bA w0 1 (by norm_num) (by norm_num)
    (by norm_num [bA]) (by norm_num [bA])

/-- Claim C4: the heel angle returned by `CalculateHeelAngle` has magnitude
at most π/4, and its sign follows the sign of the heeling moment — the
sideways sail-load term `heelMagnitude · heelDirection` of physics.cpp lines
89-96. -/
theorem C4_heel_cap_and_sign (aw : Vector2D) (hd sa : ℝ) :
    |CalculateHeelAngle aw hd sa| ≤ pi / 4 ∧
    (0 < heelingMoment aw hd sa → 0 < CalculateHeelAngle aw hd sa) ∧
    (heelingMoment aw hd sa < 0 → CalculateHeelAngle aw hd sa < 0) ∧
    (heelingMoment aw hd sa = 0 → CalculateHeelAngle aw hd sa = 0) := by
  have hpi := Real.pi_pos
  have hR : (0 : ℝ) < RIGHTING_CONSTANT := by norm_num [RIGHTING_CONSTANT]
  simp only [CalculateHeelAngle]
  refine ⟨?_, ?_, ?_, ?_⟩
  · split_ifs with h
    · rw [abs_of_nonneg (le_min (abs_nonneg _) (by positivity))]
      exact min_le_right _ _
    · rw [abs_neg, abs_of_nonneg (le_min (abs_nonneg _) (by positivity))]
      exact min_le_right _ _
  · intro hmpos
    have hha : 0 < heelingMoment aw hd sa / RIGHTING_CONSTANT := div_pos hmpos hR
    rw [if_pos hha]
    exact lt_min (abs_pos.mpr (ne_of_gt hha)) (by positivity)
  · intro hmneg
    have hha : heelingMoment aw hd sa / RIGHTING_CONSTANT < 0 :=
      div_neg_of_neg_of_pos hmneg hR
    rw [if_neg (not_lt.mpr hha.le)]
    have hmin : 0 < min |heelingMoment aw hd sa / RIGHTING_CONSTANT| (pi / 4) :=
      lt_min (abs_pos.mpr (ne_of_lt hha)) (by positivity)
    linarith
  · intro hmz
    have hha : heelingMoment aw hd sa / RIGHTING_CONSTANT = 0 := by
      rw [hmz]
      exact zero_div _
    rw [hha, if_neg (lt_irrefl 0), abs_zero,
      min_eq_left (by positivity : (0 : ℝ) ≤ pi / 4)]
    exact neg_zero

/-- Evaluation for the C4 witness: wind from dead-north on a north-heading
boat with the boom at 3π/4 loads the sail on the negative side. -/
lemma heelingMoment_witness_eval : heelingMoment ⟨0, 1⟩ 0 (3 * pi / 4) < 0 := by
  have hpi := Real.pi_pos
  have hat : atan2 (0 : ℝ) 1 = 0 := by
    rw [atan2, if_pos (by norm_num : (0 : ℝ) < 1)]
    norm_num [Real.arctan_zero]
  have hmag : Vector2D.magnitude ⟨(0 : ℝ), 1⟩ = 1 :=
    magnitude_val (by norm_num) (by norm_num)
  simp only [heelingMoment]
  rw [hat, hmag]
  rw [show (0 : ℝ) - (0 + 3 * pi / 4) = -(3 * pi / 4) by ring]
  rw [NormalizeAngle_eq_self (by linarith) (by linarith)]
  rw [show 3 * pi / 4 - pi = -(pi / 4) by ring]
  rw [NormalizeAngle_eq_self (by linarith) (by linarith)]
  rw [if_neg (not_lt.mpr (by linarith : -(3 * pi / 4) ≤ 0))]
  rw [mul_neg_one, neg_lt_zero]
  have hsin : 0 < Real.sin (3 * pi / 4) :=
    Real.sin_pos_of_pos_of_lt_pi (by positivity) (by linarith)
  have hcos : 0 < |Real.cos (-(pi / 4))| := by
    rw [Real.cos_neg, Real.cos_pi_div_four]
    exact abs_pos.mpr (ne_of_gt (by positivity))
  rw [show |(-(3 * pi / 4))| = 3 * pi / 4 by rw [abs_neg, abs_of_nonneg (by positivity)]]
  simp only [SAIL_EFFICIENCY, SAIL_AREA, SAIL_CENTER_HEIGHT]
  nlinarith [hsin, hcos, mul_pos hsin hcos]

/-- Claim C4, witness: at a concrete loading the heel angle is strictly
negative, matching the negative heeling moment. -/
theorem C4_heel_cap_and_sign_witness :
    CalculateHeelAngle ⟨0, 1⟩ 0 (3 * pi / 4) < 0 :=
  (C4_heel_cap_and_sign ⟨0, 1⟩ 0 (3 * pi / 4)).2.2.1 heelingMoment_witness_eval
